import Mathlib

/-!
Shallow embedding of the Gym Membership Management System
(`models.py`, `factories.py`, `validators.py`, `modifiers.py`,
`gym_membership.py`) and proofs about its pricing pipeline.

Conventions of the embedding:
* Python `str.lower()` is modelled by `lowerStr` (ASCII case folding,
  which coincides with the Python one on every key and message this program uses).
* Python dicts used as registries are association lists (`List (String × _)`)
  looked up with `List.lookup`, preserving insertion order for `keys()`.
* The pricing context dict always carries the keys `subtotal`, `group_size`
  and `has_premium_features` (the orchestrator always sets them), so it is a
  structure with those fields plus an `Option` field for the key
  `subtotal_with_surcharge` that the modifier chain may add.
* Python `int(x * 0.15)` / `int(x * 0.10)` on a nonnegative integer `x`
  truncates the float product; for these magnitudes that equals the exact
  floor, so it is modelled as natural-number division `x * 15 / 100`
  (resp. `x * 10 / 100`).
* Dict-indexing that can only be reached after validation
  (`self.features[f]`, `self.membership_plans[key]`) is modelled with a
  lookup defaulting to a dummy record, never hit on the validated paths.
-/

/-- ASCII lower-casing of one character, as Python `str.lower` acts on the
ASCII letters appearing in this program. -/
def lowerChar (c : Char) : Char :=
  if 65 ≤ c.toNat && c.toNat ≤ 90 then Char.ofNat (c.toNat + 32) else c

/-- ASCII lower-casing of a string, modelling Python `str.lower()`. -/
def lowerStr (s : String) : String :=
  ⟨s.data.map lowerChar⟩

/-- `models.FeatureType` enumeration. -/
inductive FeatureType where
  | standard
  | premium
deriving DecidableEq, Repr

/-- `models.MembershipPlan` dataclass. -/
structure MembershipPlan where
  name : String
  cost : Nat
  benefits : List String
  available : Bool
deriving DecidableEq, Repr

/-- `models.AdditionalFeature` dataclass. -/
structure AdditionalFeature where
  name : String
  cost : Nat
  feature_type : FeatureType
  available : Bool
deriving DecidableEq, Repr

/-- `factories.MembershipFactory.create_all`. -/
def membership_plans : List (String × MembershipPlan) :=
  [("basic",
    ⟨"Basic", 50,
     ["Access to gym facilities", "Locker room access", "Basic equipment usage"],
     true⟩),
   ("premium",
    ⟨"Premium", 100,
     ["All Basic benefits", "Access to premium equipment", "Priority booking",
      "Nutrition consultation"],
     true⟩),
   ("family",
    ⟨"Family", 150,
     ["All Premium benefits", "Up to 4 family members", "Family fitness classes",
      "Childcare services"],
     true⟩)]

/-- `factories.FeatureFactory.create_all`. -/
def features : List (String × AdditionalFeature) :=
  [("personal_training", ⟨"Personal Training Sessions", 60, FeatureType.standard, true⟩),
   ("group_classes", ⟨"Group Classes", 30, FeatureType.standard, true⟩),
   ("exclusive_facilities", ⟨"Exclusive Facilities Access", 80, FeatureType.premium, true⟩),
   ("specialized_training", ⟨"Specialized Training Programs", 100, FeatureType.premium, true⟩),
   ("nutrition_plan", ⟨"Custom Nutrition Plan", 40, FeatureType.standard, true⟩),
   ("spa_access", ⟨"Spa and Wellness Access", 70, FeatureType.premium, true⟩)]

/-- Model of joining the registry keys with a comma separator, as the
membership validator does for its error message. -/
def joinKeys (registry : List (String × MembershipPlan)) : String :=
  String.intercalate ", " (registry.map (fun p => p.1))

/-- `validators.MembershipValidator.validate`: returns `(is_valid, error)`. -/
def MembershipValidator.validate (value : String)
    (registry : List (String × MembershipPlan)) : Bool × Option String :=
  let key := lowerStr value
  match registry.lookup key with
  | none =>
      (false, some ("Invalid membership: " ++ value ++ ". Choose: " ++ joinKeys registry))
  | some plan =>
      if !plan.available then
        (false, some ("Membership \x27" ++ plan.name ++ "\x27 is unavailable."))
      else
        (true, none)

/-- `validators.FeatureValidator.validate`: returns `(is_valid, error)`. -/
def FeatureValidator.validate (value : String)
    (registry : List (String × AdditionalFeature)) : Bool × Option String :=
  let key := lowerStr value
  match registry.lookup key with
  | none =>
      (false, some ("Invalid feature: " ++ value ++ "."))
  | some feature =>
      if !feature.available then
        (false, some ("Feature \x27" ++ feature.name ++ "\x27 is unavailable."))
      else
        (true, none)

/-- The loop of `validators.FeatureListValidator.validate`, with the
accumulated `valid_keys` made explicit. -/
def FeatureListValidator.loop (registry : List (String × AdditionalFeature)) :
    List String → List String → Bool × Option String × List String
  | [], valid_keys => (true, none, valid_keys)
  | key :: rest, valid_keys =>
      let r := FeatureValidator.validate key registry
      if r.1 then
        FeatureListValidator.loop registry rest (valid_keys ++ [lowerStr key])
      else
        (false, r.2, [])

/-- `validators.FeatureListValidator.validate`: returns
`(is_valid, error, valid_keys)`. -/
def FeatureListValidator.validate (feature_keys : List String)
    (registry : List (String × AdditionalFeature)) : Bool × Option String × List String :=
  FeatureListValidator.loop registry feature_keys []

/-- The pricing context dict built by `calculate_total_cost`. -/
structure Context where
  subtotal : Nat
  group_size : Int
  has_premium_features : Bool
  subtotal_with_surcharge : Option Nat
deriving DecidableEq, Repr

/-- `modifiers.PremiumSurchargeModifier.can_apply`. -/
def PremiumSurchargeModifier.can_apply (context : Context) : Bool :=
  context.has_premium_features

/-- `modifiers.PremiumSurchargeModifier.apply`:
`int(subtotal * 0.15)` modelled as `subtotal * 15 / 100`. -/
def PremiumSurchargeModifier.apply (context : Context) : Nat × String :=
  let subtotal := context.subtotal
  let surcharge := subtotal * 15 / 100
  (surcharge, "Premium features surcharge (15%): +$" ++ toString surcharge)

/-- `modifiers.GroupDiscountModifier.can_apply`. -/
def GroupDiscountModifier.can_apply (context : Context) : Bool :=
  decide (2 ≤ context.group_size)

/-- `modifiers.GroupDiscountModifier.apply`:
`int(cost * 0.10)` modelled as `cost * 10 / 100`. -/
def GroupDiscountModifier.apply (context : Context) : Nat × String :=
  let cost := context.subtotal_with_surcharge.getD context.subtotal
  let group_size := context.group_size
  let discount := cost * 10 / 100
  (discount,
   "Group discount (10% for " ++ toString group_size ++ "): -$" ++ toString discount)

/-- `modifiers.SpecialOfferModifier.can_apply`. -/
def SpecialOfferModifier.can_apply (context : Context) : Bool :=
  let cost := context.subtotal_with_surcharge.getD context.subtotal
  decide (200 < cost)

/-- `modifiers.SpecialOfferModifier.apply`. -/
def SpecialOfferModifier.apply (context : Context) : Nat × String :=
  let cost := context.subtotal_with_surcharge.getD context.subtotal
  if 400 < cost then
    (50, "Special offer (>$400): -$50")
  else if 200 < cost then
    (20, "Special offer (>$200): -$20")
  else
    (0, "")

/-- The `results` dict of `modifiers.PriceModifierChain.apply_all`. -/
structure ModResults where
  premium_surcharge : Nat
  premium_msg : String
  group_discount : Nat
  group_msg : String
  special_discount : Nat
  special_msg : String
deriving DecidableEq, Repr

/-- `modifiers.PriceModifierChain.apply_all` for the chain
`[PremiumSurchargeModifier, GroupDiscountModifier, SpecialOfferModifier]`
built by `GymMembershipSystem.__init__`, the loop unrolled over that fixed
chain.  The context mutation writing the subtotal_with_surcharge key is
modelled by returning the updated context alongside the results. -/
def PriceModifierChain.apply_all (context : Context) : ModResults × Context :=
  let step1 :=
    if PremiumSurchargeModifier.can_apply context then
      let am := PremiumSurchargeModifier.apply context
      (am.1, am.2,
       Context.mk context.subtotal context.group_size context.has_premium_features
         (some (context.subtotal + am.1)))
    else
      (0, "", context)
  let context1 := step1.2.2
  let step2 :=
    if GroupDiscountModifier.can_apply context1 then
      GroupDiscountModifier.apply context1
    else
      (0, "")
  let step3 :=
    if SpecialOfferModifier.can_apply context1 then
      SpecialOfferModifier.apply context1
    else
      (0, "")
  (ModResults.mk step1.1 step1.2.1 step2.1 step2.2 step3.1 step3.2, context1)

/-- Cost of `self.features[f]`, with a default never reached after
validation. -/
def featureCostOf (f : String) : Nat :=
  match features.lookup f with
  | some ft => ft.cost
  | none => 0

/-- Whether `self.features[f].feature_type == FeatureType.PREMIUM`. -/
def featureIsPremium (f : String) : Bool :=
  match features.lookup f with
  | some ft => decide (ft.feature_type = FeatureType.premium)
  | none => false

/-- Name of `self.features[f]`, with a default never reached after
validation. -/
def featureNameOf (f : String) : String :=
  match features.lookup f with
  | some ft => ft.name
  | none => ""

/-- The plan `self.membership_plans[membership_key.lower()]`, with a default
never reached after validation. -/
def planOf (membership_key : String) : MembershipPlan :=
  match membership_plans.lookup (lowerStr membership_key) with
  | some plan => plan
  | none => ⟨"", 0, [], true⟩

/-- `GymMembershipSystem._calculate_base_costs`: returns
`(base_cost, features_cost, has_premium)`. -/
def calculate_base_costs (membership_key : String) (feature_keys : List String) :
    Nat × Nat × Bool :=
  let base_cost := (planOf membership_key).cost
  let features_cost := (feature_keys.map featureCostOf).sum
  let has_premium := feature_keys.any featureIsPremium
  (base_cost, features_cost, has_premium)

/-- The dict returned by `GymMembershipSystem.calculate_total_cost`: the
failure shape `{"valid": False, "error": ..., "total": -1}` and the success
shape with all pricing fields. -/
inductive CalcResult where
  | err (error : Option String) (total : Int)
  | ok (base_cost : Nat) (features_cost : Nat) (subtotal : Nat)
       (premium_surcharge : Nat) (premium_msg : String)
       (group_discount : Nat) (group_msg : String)
       (special_discount : Nat) (special_msg : String)
       (total : Int) (membership_name : String) (selected_features : List String)
deriving DecidableEq, Repr

/-- The `"valid"` entry of the result dict. -/
def CalcResult.valid : CalcResult → Bool
  | .err _ _ => false
  | .ok _ _ _ _ _ _ _ _ _ _ _ _ => true

/-- The `"total"` entry of the result dict. -/
def CalcResult.total : CalcResult → Int
  | .err _ t => t
  | .ok _ _ _ _ _ _ _ _ _ t _ _ => t

/-- The `"subtotal"` entry of the result dict (0 when absent). -/
def CalcResult.subtotal : CalcResult → Nat
  | .err _ _ => 0
  | .ok _ _ s _ _ _ _ _ _ _ _ _ => s

/-- The `"base_cost"` entry of the result dict (0 when absent). -/
def CalcResult.base_cost : CalcResult → Nat
  | .err _ _ => 0
  | .ok b _ _ _ _ _ _ _ _ _ _ _ => b

/-- The `"features_cost"` entry of the result dict (0 when absent). -/
def CalcResult.features_cost : CalcResult → Nat
  | .err _ _ => 0
  | .ok _ f _ _ _ _ _ _ _ _ _ _ => f

/-- The `"premium_surcharge"` entry of the result dict (0 when absent). -/
def CalcResult.premium_surcharge : CalcResult → Nat
  | .err _ _ => 0
  | .ok _ _ _ p _ _ _ _ _ _ _ _ => p

/-- The `"group_discount"` entry of the result dict (0 when absent). -/
def CalcResult.group_discount : CalcResult → Nat
  | .err _ _ => 0
  | .ok _ _ _ _ _ g _ _ _ _ _ _ => g

/-- The `"special_discount"` entry of the result dict (0 when absent). -/
def CalcResult.special_discount : CalcResult → Nat
  | .err _ _ => 0
  | .ok _ _ _ _ _ _ _ s _ _ _ _ => s

/-- `GymMembershipSystem.calculate_total_cost`. -/
def calculate_total_cost (membership_key : String) (feature_keys : List String)
    (group_size : Int) : CalcResult :=
  let mv := MembershipValidator.validate membership_key membership_plans
  if !mv.1 then
    CalcResult.err mv.2 (-1)
  else
    let fv := FeatureListValidator.validate feature_keys features
    if !fv.1 then
      CalcResult.err fv.2.1 (-1)
    else
      let valid_features := fv.2.2
      let bfh := calculate_base_costs membership_key valid_features
      let base_cost := bfh.1
      let features_cost := bfh.2.1
      let has_premium := bfh.2.2
      let subtotal := base_cost + features_cost
      let context := Context.mk subtotal group_size has_premium none
      let modifier_results := (PriceModifierChain.apply_all context).1
      let total : Int :=
        (subtotal : Int) + modifier_results.premium_surcharge
          - modifier_results.group_discount - modifier_results.special_discount
      CalcResult.ok base_cost features_cost subtotal
        modifier_results.premium_surcharge modifier_results.premium_msg
        modifier_results.group_discount modifier_results.group_msg
        modifier_results.special_discount modifier_results.special_msg
        (max 0 total) (planOf membership_key).name
        (valid_features.map featureNameOf)

/-- `GymMembershipSystem.process_membership`. -/
def process_membership (membership_key : String) (feature_keys : List String)
    (group_size : Int) (confirmed : Bool) : Int :=
  if !confirmed then
    -1
  else
    let result := calculate_total_cost membership_key feature_keys group_size
    if result.valid then result.total else -1

/-! ### Helper lemmas -/

/-- `Char.ofNat` on a small code point keeps the code point. -/
theorem toNat_ofNat_small (n : Nat) (h : n < 55296) : (Char.ofNat n).toNat = n := by
  have hv : n.isValidChar := Or.inl h
  simp [Char.ofNat, hv, Char.ofNatAux, Char.toNat, UInt32.toNat, BitVec.toNat_ofNatLt]

/-- The result of `lowerChar` is never an upper-case ASCII letter. -/
theorem lowerChar_not_upper (c : Char) :
    ¬(65 ≤ (lowerChar c).toNat ∧ (lowerChar c).toNat ≤ 90) := by
  unfold lowerChar
  split
  · rename_i h
    simp only [Bool.and_eq_true, decide_eq_true_eq] at h
    rw [toNat_ofNat_small (c.toNat + 32) (by omega)]
    omega
  · rename_i h
    simp only [Bool.and_eq_true, decide_eq_true_eq] at h
    omega

/-- `lowerChar` is idempotent. -/
theorem lowerChar_idem (c : Char) : lowerChar (lowerChar c) = lowerChar c := by
  have h := lowerChar_not_upper c
  generalize lowerChar c = d at h
  unfold lowerChar
  rw [if_neg]
  simp only [Bool.and_eq_true, decide_eq_true_eq]
  exact h

/-- `lowerStr` is idempotent, as Python `str.lower` is. -/
theorem lowerStr_idem (s : String) : lowerStr (lowerStr s) = lowerStr s := by
  unfold lowerStr
  apply congrArg
  simp only [List.map_map]
  exact List.map_congr_left (fun c _ => lowerChar_idem c)

/-- Characterisation of the feature-list validation loop: it returns the
error of the first failing key with an empty list, or all keys lowercased
appended to the accumulator. -/
theorem loop_spec (registry : List (String × AdditionalFeature))
    (keys acc : List String) :
    FeatureListValidator.loop registry keys acc =
      match keys.find? (fun k => !(FeatureValidator.validate k registry).1) with
      | none => (true, none, acc ++ keys.map lowerStr)
      | some bad => (false, (FeatureValidator.validate bad registry).2, []) := by
  induction keys generalizing acc with
  | nil => simp [FeatureListValidator.loop]
  | cons k rest ih =>
    by_cases h : (FeatureValidator.validate k registry).1 = true
    · rw [List.find?_cons_of_neg _ (by simp [h])]
      simp only [FeatureListValidator.loop, h, if_true]
      rw [ih]
      cases hf : rest.find? (fun k => !(FeatureValidator.validate k registry).1) with
      | none => simp
      | some bad => simp
    · rw [List.find?_cons_of_pos _ (by simp [h])]
      simp [FeatureListValidator.loop, h]

/-- Natural division by 100 computes the rational floor of a percentage. -/
theorem floor_pct (p x : Nat) : Nat.floor (((p : ℚ) * x) / 100) = x * p / 100 := by
  have hc : ((p * x : ℕ) : ℚ) = (p : ℚ) * x := by push_cast; ring
  have h100 : ((100 : ℚ)) = ((100 : ℕ) : ℚ) := by norm_num
  rw [← hc, h100, Nat.floor_div_eq_div, Nat.mul_comm]

/-- Specialisation of `floor_pct` to 15%. -/
theorem floor_pct15 (x : Nat) : Nat.floor (((15 : ℚ) * x) / 100) = x * 15 / 100 := by
  rw [show (15 : ℚ) = ((15 : ℕ) : ℚ) by norm_num]
  exact floor_pct 15 x

/-- Specialisation of `floor_pct` to 10%. -/
theorem floor_pct10 (x : Nat) : Nat.floor (((10 : ℚ) * x) / 100) = x * 10 / 100 := by
  rw [show (10 : ℚ) = ((10 : ℕ) : ℚ) by norm_num]
  exact floor_pct 10 x

/-! ### Claims -/

/-- Claim C2: the premium surcharge modifier applies iff the premium-presence
flag is true; when it applies its amount is the floor of 15% of the subtotal
with the surcharge message, and the chain stores
`subtotal_with_surcharge = subtotal + amount` in the context; when it does not
apply the chain records amount 0 with empty message. -/
theorem claim_C2 (ctx : Context) :
    (PremiumSurchargeModifier.can_apply ctx = ctx.has_premium_features) ∧
    (ctx.has_premium_features = true →
      (PremiumSurchargeModifier.apply ctx).1 =
        Nat.floor (((15 : ℚ) * ctx.subtotal) / 100) ∧
      (PremiumSurchargeModifier.apply ctx).2 =
        "Premium features surcharge (15%): +$" ++
          toString (PremiumSurchargeModifier.apply ctx).1 ∧
      (PriceModifierChain.apply_all ctx).1.premium_surcharge =
        (PremiumSurchargeModifier.apply ctx).1 ∧
      (PriceModifierChain.apply_all ctx).1.premium_msg =
        (PremiumSurchargeModifier.apply ctx).2 ∧
      (PriceModifierChain.apply_all ctx).2.subtotal_with_surcharge =
        some (ctx.subtotal + (PremiumSurchargeModifier.apply ctx).1)) ∧
    (ctx.has_premium_features = false →
      (PriceModifierChain.apply_all ctx).1.premium_surcharge = 0 ∧
      (PriceModifierChain.apply_all ctx).1.premium_msg = "") := by
  refine ⟨rfl, fun h => ?_, fun h => ?_⟩
  · refine ⟨?_, rfl, ?_, ?_, ?_⟩
    · rw [floor_pct15]
      rfl
    · simp [PriceModifierChain.apply_all, PremiumSurchargeModifier.can_apply, h]
    · simp [PriceModifierChain.apply_all, PremiumSurchargeModifier.can_apply, h]
    · simp [PriceModifierChain.apply_all, PremiumSurchargeModifier.can_apply, h]
  · constructor
    · simp [PriceModifierChain.apply_all, PremiumSurchargeModifier.can_apply, h]
    · simp [PriceModifierChain.apply_all, PremiumSurchargeModifier.can_apply, h]

/-- Claim C2 witness: with subtotal 130 and the premium flag set, the
surcharge equals the rational floor of 15% of 130, which is 19. -/
theorem claim_C2_witness :
    (PremiumSurchargeModifier.apply (Context.mk 130 1 true none)).1 =
      Nat.floor (((15 : ℚ) * (130 : Nat)) / 100) ∧
    (PremiumSurchargeModifier.apply (Context.mk 130 1 true none)).1 = 19 ∧
    (PriceModifierChain.apply_all (Context.mk 130 1 true none)).2.subtotal_with_surcharge =
      some (130 + 19) :=
  ⟨((claim_C2 (Context.mk 130 1 true none)).2.1 rfl).1, by decide,
   by decide⟩

/-- Claim C3: the group discount modifier applies iff the group size is at
least 2 (so never for a group of 1); its amount is the floor of 10% of
`subtotal_with_surcharge` when present, else of the raw subtotal, and its
message names the group size. -/
theorem claim_C3 (ctx : Context) :
    (GroupDiscountModifier.can_apply ctx = true ↔ 2 ≤ ctx.group_size) ∧
    (ctx.group_size = 1 → GroupDiscountModifier.can_apply ctx = false) ∧
    ((GroupDiscountModifier.apply ctx).1 =
      Nat.floor (((10 : ℚ) * (ctx.subtotal_with_surcharge.getD ctx.subtotal)) / 100)) ∧
    ((GroupDiscountModifier.apply ctx).2 =
      "Group discount (10% for " ++ toString ctx.group_size ++ "): -$" ++
        toString (GroupDiscountModifier.apply ctx).1) ∧
    (GroupDiscountModifier.can_apply ctx = false →
      (PriceModifierChain.apply_all ctx).1.group_discount = 0 ∧
      (PriceModifierChain.apply_all ctx).1.group_msg = "") := by
  refine ⟨?_, fun h => ?_, ?_, rfl, fun h => ?_⟩
  · simp [GroupDiscountModifier.can_apply]
  · simp [GroupDiscountModifier.can_apply, h]
  · rw [floor_pct10]
    rfl
  · have h2 : ¬(2 ≤ ctx.group_size) := by
      simpa [GroupDiscountModifier.can_apply] using h
    constructor
    · simp only [PriceModifierChain.apply_all, GroupDiscountModifier.can_apply]
      split <;> simp [h2]
    · simp only [PriceModifierChain.apply_all, GroupDiscountModifier.can_apply]
      split <;> simp [h2]

/-- Claim C3 witness: with a surcharge-inclusive base of 230 and group size
1 the modifier cannot apply; with group size 3 its amount is the floor of
10% of 230, which is 23, and its message shows the group size 3. -/
theorem claim_C3_witness :
    (GroupDiscountModifier.can_apply (Context.mk 200 1 false (some 230)) = false) ∧
    (GroupDiscountModifier.apply (Context.mk 200 3 false (some 230))).1 =
      Nat.floor (((10 : ℚ) * ((some 230).getD 200 : Nat)) / 100) ∧
    (GroupDiscountModifier.apply (Context.mk 200 3 false (some 230))).1 = 23 ∧
    (GroupDiscountModifier.apply (Context.mk 200 3 false (some 230))).2 =
      "Group discount (10% for 3): -$23" :=
  ⟨(claim_C3 (Context.mk 200 1 false (some 230))).2.1 rfl,
   (claim_C3 (Context.mk 200 3 false (some 230))).2.2.1, by decide, by decide⟩

/-- Claim C4: the special offer modifier applies iff its base (the
surcharge-inclusive cost when present, else the raw subtotal) strictly
exceeds 200; its amount is 50 above 400, else 20 above 200, else 0; the
boundaries 200 and 400 fall on the lower side. -/
theorem claim_C4 (ctx : Context) :
    (SpecialOfferModifier.can_apply ctx = true ↔
      200 < ctx.subtotal_with_surcharge.getD ctx.subtotal) ∧
    ((SpecialOfferModifier.apply ctx).1 =
      if 400 < ctx.subtotal_with_surcharge.getD ctx.subtotal then 50
      else if 200 < ctx.subtotal_with_surcharge.getD ctx.subtotal then 20
      else 0) ∧
    (ctx.subtotal_with_surcharge.getD ctx.subtotal = 200 →
      SpecialOfferModifier.can_apply ctx = false ∧
      (SpecialOfferModifier.apply ctx).1 = 0) ∧
    (ctx.subtotal_with_surcharge.getD ctx.subtotal = 400 →
      (SpecialOfferModifier.apply ctx).1 = 20) := by
  refine ⟨?_, ?_, fun h => ⟨?_, ?_⟩, fun h => ?_⟩
  · simp [SpecialOfferModifier.can_apply]
  · simp only [SpecialOfferModifier.apply]
    by_cases h4 : 400 < ctx.subtotal_with_surcharge.getD ctx.subtotal
    · simp [h4]
    · by_cases h2 : 200 < ctx.subtotal_with_surcharge.getD ctx.subtotal
      · simp [h4, h2]
      · simp [h4, h2]
  · simp [SpecialOfferModifier.can_apply, h]
  · simp [SpecialOfferModifier.apply, h]
  · simp [SpecialOfferModifier.apply, h]

/-- Claim C4 witness: at base 200 the special offer cannot apply and its
amount is 0; at base 400 the amount is 20, not 50; at 401 it is 50. -/
theorem claim_C4_witness :
    (SpecialOfferModifier.can_apply (Context.mk 200 1 false none) = false) ∧
    (SpecialOfferModifier.apply (Context.mk 200 1 false none)).1 = 0 ∧
    (SpecialOfferModifier.apply (Context.mk 100 1 false (some 400))).1 = 20 ∧
    (SpecialOfferModifier.apply (Context.mk 401 1 false none)).1 = 50 :=
  ⟨((claim_C4 (Context.mk 200 1 false none)).2.2.1 rfl).1,
   ((claim_C4 (Context.mk 200 1 false none)).2.2.1 rfl).2,
   (claim_C4 (Context.mk 100 1 false (some 400))).2.2.2 rfl,
   by decide⟩

/-- Claim C10: the modifier chain leaves `subtotal`, `group_size` and
`has_premium_features` unchanged in the context; it writes
`subtotal_with_surcharge` (to subtotal plus surcharge amount) exactly when
the premium-presence flag is true, and touches nothing else. -/
theorem claim_C10 (ctx : Context) :
    ((PriceModifierChain.apply_all ctx).2.subtotal = ctx.subtotal) ∧
    ((PriceModifierChain.apply_all ctx).2.group_size = ctx.group_size) ∧
    ((PriceModifierChain.apply_all ctx).2.has_premium_features =
      ctx.has_premium_features) ∧
    (ctx.has_premium_features = true →
      (PriceModifierChain.apply_all ctx).2.subtotal_with_surcharge =
        some (ctx.subtotal + (PremiumSurchargeModifier.apply ctx).1)) ∧
    (ctx.has_premium_features = false →
      (PriceModifierChain.apply_all ctx).2.subtotal_with_surcharge =
        ctx.subtotal_with_surcharge) := by
  refine ⟨?_, ?_, ?_, fun h => ?_, fun h => ?_⟩
  · simp only [PriceModifierChain.apply_all]
    split <;> rfl
  · simp only [PriceModifierChain.apply_all]
    split <;> rfl
  · simp only [PriceModifierChain.apply_all]
    split <;> rfl
  · simp [PriceModifierChain.apply_all, PremiumSurchargeModifier.can_apply, h]
  · simp [PriceModifierChain.apply_all, PremiumSurchargeModifier.can_apply, h]

/-- Claim C10 witness: on a premium context the chain writes the
surcharge-inclusive subtotal and preserves the other entries; on a
non-premium context it leaves the context unchanged. -/
theorem claim_C10_witness :
    ((PriceModifierChain.apply_all (Context.mk 130 2 true none)).2.subtotal = 130) ∧
    ((PriceModifierChain.apply_all (Context.mk 130 2 true none)).2.subtotal_with_surcharge =
      some (130 + (PremiumSurchargeModifier.apply (Context.mk 130 2 true none)).1)) ∧
    ((PriceModifierChain.apply_all (Context.mk 130 2 false none)).2.subtotal_with_surcharge =
      none) :=
  ⟨(claim_C10 (Context.mk 130 2 true none)).1,
   (claim_C10 (Context.mk 130 2 true none)).2.2.2.1 rfl,
   (claim_C10 (Context.mk 130 2 false none)).2.2.2.2 rfl⟩

/-- Claim C5: when membership validation or feature-list validation fails,
`calculate_total_cost` returns the failure dict carrying the error of that
validation and the sentinel total -1, short-circuiting the pricing pipeline. -/
theorem claim_C5 (mk : String) (fks : List String) (gs : Int) :
    ((MembershipValidator.validate mk membership_plans).1 = false →
      calculate_total_cost mk fks gs =
        CalcResult.err (MembershipValidator.validate mk membership_plans).2 (-1)) ∧
    ((MembershipValidator.validate mk membership_plans).1 = true →
      (FeatureListValidator.validate fks features).1 = false →
      calculate_total_cost mk fks gs =
        CalcResult.err (FeatureListValidator.validate fks features).2.1 (-1)) ∧
    ((MembershipValidator.validate mk membership_plans).1 = false ∨
      (FeatureListValidator.validate fks features).1 = false →
      (calculate_total_cost mk fks gs).valid = false ∧
      (calculate_total_cost mk fks gs).total = -1) := by
  refine ⟨fun h1 => ?_, fun h1 h2 => ?_, fun h => ?_⟩
  · simp [calculate_total_cost, h1]
  · simp [calculate_total_cost, h1, h2]
  · rcases h with h | h
    · simp [calculate_total_cost, h, CalcResult.valid, CalcResult.total]
    · by_cases h1 : (MembershipValidator.validate mk membership_plans).1 = true
      · simp [calculate_total_cost, h1, h, CalcResult.valid, CalcResult.total]
      · simp only [Bool.not_eq_true] at h1
        simp [calculate_total_cost, h1, CalcResult.valid, CalcResult.total]

/-- Claim C5 witness: an unknown membership key fails with the membership
error and total −1, and a known key with an unknown feature fails with the
feature error and total −1. -/
theorem claim_C5_witness :
    calculate_total_cost "gold" [] 1 =
      CalcResult.err (MembershipValidator.validate "gold" membership_plans).2 (-1) ∧
    calculate_total_cost "basic" ["sauna"] 1 =
      CalcResult.err (FeatureListValidator.validate ["sauna"] features).2.1 (-1) ∧
    (calculate_total_cost "basic" ["sauna"] 1).valid = false ∧
    (calculate_total_cost "basic" ["sauna"] 1).total = -1 :=
  ⟨(claim_C5 "gold" [] 1).1 rfl,
   (claim_C5 "basic" ["sauna"] 1).2.1 rfl rfl,
   (claim_C5 "basic" ["sauna"] 1).2.2 (Or.inr rfl)⟩

/-- Claim C6: feature-list validation short-circuits at the first invalid or
unavailable key, returning the error of that key with an empty accepted list;
when every key is valid it accepts all keys, lowercased, in order. -/
theorem claim_C6 (keys : List String) (registry : List (String × AdditionalFeature)) :
    FeatureListValidator.validate keys registry =
      match keys.find? (fun k => !(FeatureValidator.validate k registry).1) with
      | none => (true, none, keys.map lowerStr)
      | some bad => (false, (FeatureValidator.validate bad registry).2, []) := by
  rw [FeatureListValidator.validate, loop_spec]
  cases keys.find? (fun k => !(FeatureValidator.validate k registry).1) with
  | none => simp
  | some bad => rfl

/-- Claim C7: membership validation is insensitive to the letter-case of a
valid key, because it lowercases the key before the lookup and the registry
keys are stored lowercase. -/
theorem claim_C7 (k : String)
    (h : (MembershipValidator.validate k membership_plans).1 = true) :
    MembershipValidator.validate k membership_plans =
      MembershipValidator.validate (lowerStr k) membership_plans ∧
    (∀ p ∈ membership_plans, lowerStr p.1 = p.1) := by
  refine ⟨?_, by decide⟩
  simp only [MembershipValidator.validate] at h ⊢
  rw [lowerStr_idem]
  cases hl : membership_plans.lookup (lowerStr k) with
  | none => rw [hl] at h; simp at h
  | some plan => rfl

/-- Claim C7 witness: the upper-case spelling "PREMIUM" of the valid key
"premium" validates, and validating it agrees with validating its
lower-casing. -/
theorem claim_C7_witness :
    MembershipValidator.validate "PREMIUM" membership_plans =
      MembershipValidator.validate (lowerStr "PREMIUM") membership_plans ∧
    (MembershipValidator.validate "PREMIUM" membership_plans).1 = true :=
  ⟨(claim_C7 "PREMIUM" (by decide)).1, by decide⟩

/-- Claim C9: `process_membership` returns −1 when not confirmed, without
pricing; when confirmed it returns the computed total if the result is
valid and −1 otherwise. -/
theorem claim_C9 (mk : String) (fks : List String) (gs : Int) (confirmed : Bool) :
    (confirmed = false → process_membership mk fks gs confirmed = -1) ∧
    (confirmed = true →
      process_membership mk fks gs confirmed =
        (if (calculate_total_cost mk fks gs).valid then
          (calculate_total_cost mk fks gs).total
        else -1)) := by
  constructor
  · intro h
    simp [process_membership, h]
  · intro h
    simp [process_membership, h]

/-- Claim C9 witness: an unconfirmed valid selection yields −1, the same
selection confirmed yields its computed total 50, and a confirmed invalid
selection yields −1. -/
theorem claim_C9_witness :
    process_membership "basic" [] 1 false = -1 ∧
    process_membership "basic" [] 1 true = 50 ∧
    process_membership "gold" [] 1 true = -1 :=
  ⟨(claim_C9 "basic" [] 1 false).1 rfl,
   by
     have h := (claim_C9 "basic" [] 1 true).2 rfl
     rw [h]
     decide,
   by
     have h := (claim_C9 "gold" [] 1 true).2 rfl
     rw [h]
     decide⟩

/-- Claim C8: for a validated plan key and feature-key list, the cost
aggregator returns the cost of the plan record, the order-independent sum of
the listed feature costs counting duplicates, and a premium flag that is true
iff some listed feature is premium. -/
theorem claim_C8 (mk : String) (fks : List String) (plan : MembershipPlan)
    (hp : membership_plans.lookup (lowerStr mk) = some plan) :
    calculate_base_costs mk fks =
      (plan.cost, (fks.map featureCostOf).sum, fks.any featureIsPremium) ∧
    (∀ f ∈ fks, ∀ ft, features.lookup f = some ft → featureCostOf f = ft.cost) ∧
    (∀ fks2 : List String, fks2.Perm fks →
      (fks2.map featureCostOf).sum = (fks.map featureCostOf).sum) ∧
    (fks.any featureIsPremium = true ↔
      ∃ f ∈ fks, ∃ ft, features.lookup f = some ft ∧
        ft.feature_type = FeatureType.premium) := by
  refine ⟨?_, ?_, ?_, ?_⟩
  · simp [calculate_base_costs, planOf, hp]
  · intro f _ ft hft
    simp [featureCostOf, hft]
  · intro fks2 hperm
    exact (hperm.map featureCostOf).sum_eq
  · rw [List.any_eq_true]
    constructor
    · rintro ⟨f, hf, hpf⟩
      refine ⟨f, hf, ?_⟩
      unfold featureIsPremium at hpf
      cases hft : features.lookup f with
      | none => rw [hft] at hpf; simp at hpf
      | some ft =>
          rw [hft] at hpf
          simp only [decide_eq_true_eq] at hpf
          exact ⟨ft, rfl, hpf⟩
    · rintro ⟨f, hf, ft, hft, hprem⟩
      refine ⟨f, hf, ?_⟩
      simp [featureIsPremium, hft, hprem]

/-- Claim C8 witness: for the basic plan with a duplicated premium feature,
the aggregator returns cost 50, feature cost 140 (70 counted twice) and the
premium flag set. -/
theorem claim_C8_witness :
    calculate_base_costs "basic" ["spa_access", "spa_access"] =
      (50, ((["spa_access", "spa_access"] : List String).map featureCostOf).sum,
       (["spa_access", "spa_access"] : List String).any featureIsPremium) ∧
    calculate_base_costs "basic" ["spa_access", "spa_access"] = (50, 140, true) :=
  ⟨(claim_C8 "basic" ["spa_access", "spa_access"]
      (MembershipPlan.mk "Basic" 50
        ["Access to gym facilities", "Locker room access", "Basic equipment usage"]
        true) (by decide)).1,
   by decide⟩

/-- Claim C1: when both validations succeed, `calculate_total_cost` returns
a valid result whose subtotal is the plan base cost plus the summed
feature costs and whose total is `max 0` of subtotal plus surcharge minus
the two discounts, hence never negative. -/
theorem claim_C1 (mk : String) (fks : List String) (gs : Int) (plan : MembershipPlan)
    (h1 : (MembershipValidator.validate mk membership_plans).1 = true)
    (h2 : (FeatureListValidator.validate fks features).1 = true)
    (hp : membership_plans.lookup (lowerStr mk) = some plan) :
    (calculate_total_cost mk fks gs).valid = true ∧
    (calculate_total_cost mk fks gs).base_cost = plan.cost ∧
    (calculate_total_cost mk fks gs).features_cost =
      (fks.map (fun f => featureCostOf (lowerStr f))).sum ∧
    (calculate_total_cost mk fks gs).subtotal =
      (calculate_total_cost mk fks gs).base_cost +
        (calculate_total_cost mk fks gs).features_cost ∧
    (calculate_total_cost mk fks gs).total =
      max 0 (((calculate_total_cost mk fks gs).subtotal : Int)
        + (calculate_total_cost mk fks gs).premium_surcharge
        - (calculate_total_cost mk fks gs).group_discount
        - (calculate_total_cost mk fks gs).special_discount) ∧
    0 ≤ (calculate_total_cost mk fks gs).total := by
  have hfv : FeatureListValidator.validate fks features =
      (true, none, fks.map lowerStr) := by
    have hc := loop_spec features fks []
    rw [FeatureListValidator.validate] at h2 ⊢
    rw [hc] at h2 ⊢
    cases hf : fks.find? (fun k => !(FeatureValidator.validate k features).1) with
    | none => simp
    | some bad => rw [hf] at h2; simp at h2
  simp only [calculate_total_cost, hfv, h1, Bool.not_true, Bool.false_eq_true, if_false,
    CalcResult.valid, CalcResult.base_cost, CalcResult.features_cost, CalcResult.subtotal,
    CalcResult.total, CalcResult.premium_surcharge, CalcResult.group_discount,
    CalcResult.special_discount, calculate_base_costs, planOf, hp]
  refine ⟨trivial, trivial, ?_, trivial, trivial, le_max_left 0 _⟩
  rw [List.map_map]
  rfl

/-- Claim C1 witness: the premium plan with the spa feature for a group of
2 prices validly at base 100, features 70, subtotal 170, surcharge 25,
group discount 19, no special discount, total 176 ≥ 0. -/
theorem claim_C1_witness :
    (calculate_total_cost "premium" ["spa_access"] 2).valid = true ∧
    (calculate_total_cost "premium" ["spa_access"] 2).base_cost =
      (MembershipPlan.mk "Premium" 100
        ["All Basic benefits", "Access to premium equipment", "Priority booking",
         "Nutrition consultation"] true).cost ∧
    0 ≤ (calculate_total_cost "premium" ["spa_access"] 2).total ∧
    (calculate_total_cost "premium" ["spa_access"] 2).total = 176 :=
  ⟨(claim_C1 "premium" ["spa_access"] 2
      (MembershipPlan.mk "Premium" 100
        ["All Basic benefits", "Access to premium equipment", "Priority booking",
         "Nutrition consultation"] true) (by decide) (by decide) (by decide)).1,
   (claim_C1 "premium" ["spa_access"] 2
      (MembershipPlan.mk "Premium" 100
        ["All Basic benefits", "Access to premium equipment", "Priority booking",
         "Nutrition consultation"] true) (by decide) (by decide) (by decide)).2.1,
   (claim_C1 "premium" ["spa_access"] 2
      (MembershipPlan.mk "Premium" 100
        ["All Basic benefits", "Access to premium equipment", "Priority booking",
         "Nutrition consultation"] true) (by decide) (by decide) (by decide)).2.2.2.2.2,
   by decide⟩
